import Mathlib

/-!
Verification of the RAVEN puzzle-generation core (tensor model).

This file gives a shallow embedding of the Python sources under
`src/dataset/core` (panels, attribute schema, rules, row / puzzle /
distractor generators) and proves or refutes the specified properties.

Conventions of the embedding:
* A torch tensor of shape (3,3,5) with integer entries is modelled as a
  function `Fin 3 → Fin 3 → Fin 5 → ℤ`.
* Python exceptions are modelled with `Except PyErr`; a function that can
  raise returns `Except PyErr α`.
* Python in-place mutation is modelled by explicit state passing: a method
  that mutates an argument returns the new value of that argument.
* Randomness (`random.randint`, `random.sample`, `random.shuffle`, ...) is
  modelled by oracle parameters: the random draws are inputs, constrained
  only by what the library guarantees (e.g. a shuffled index list is some
  permutation of `range n`).
* Python `%` on integers agrees with `Int.emod` for a positive modulus.
-/

/-- Python exception kinds that the embedded code can raise. -/
inductive PyErr where
  /-- `ValueError` (also covers the `InvalidAttributeValue` validation
  failure raised by `Attribute.validate`, which the source raises as a
  `ValueError`). -/
  | valueError : PyErr
  /-- `RuntimeError`, e.g. truthiness of a multi-element torch tensor. -/
  | runtimeError : PyErr
  /-- `KeyError`, e.g. unknown attribute name in the `ATTRIBUTES` dict. -/
  | keyError : PyErr
  /-- `IndexError`, e.g. `children[0]` on an empty list. -/
  | indexError : PyErr
  /-- `AttributeError`, e.g. calling a method on `None`. -/
  | attributeError : PyErr
  /-- `TypeError`, e.g. a call with unexpected keyword arguments. -/
  | typeError : PyErr
  /-- `ZeroDivisionError`, e.g. a statistics ratio over zero attempts. -/
  | zeroDivisionError : PyErr
  deriving DecidableEq, Repr

/-- A (3,3,5) integer tensor: 3×3 grid cells, each an attribute vector
`[exists, type, size, angle, color]`. -/
abbrev Tensor : Type := Fin 3 → Fin 3 → Fin 5 → ℤ

/-- The all-zero tensor, `torch.zeros((3, 3, 5))`. -/
def Tensor.zero : Tensor := fun _ _ _ => 0

/-- `TensorPanel` (src/dataset/core/aot/tensor_panel.py): a panel is its
(3,3,5) tensor. -/
structure Panel where
  tensor : Tensor
  deriving DecidableEq

/-- An empty panel, `TensorPanel()` (zero tensor). -/
def Panel.zero : Panel := ⟨Tensor.zero⟩

/-- `Attribute` (src/dataset/core/aot/attributes.py).  The display values of
`value_map` (shape names, colour names, ...) play no role in any verified
property, so only the key set of the map is kept. -/
structure Attribute where
  name : String
  index : Fin 5
  min_val : ℤ
  max_val : ℤ
  /-- The keys of `value_map` (the declared ordinal set). -/
  valueKeys : List ℤ
  deriving DecidableEq

/-- `Attribute.validate`: ok iff the value is a key of `value_map`,
otherwise a `ValueError` ("InvalidAttributeValue"). -/
def Attribute.validate (a : Attribute) (value : ℤ) : Except PyErr ℤ :=
  if value ∈ a.valueKeys then .ok value else .error .valueError

/-- `Attribute.next_value`: wrap within `[min_val, max_val]`:
`min + ((value - min + step) % range_size)`. -/
def Attribute.nextValue (a : Attribute) (value : ℤ) (step : ℤ) : ℤ :=
  a.min_val + ((value - a.min_val + step) % (a.max_val - a.min_val + 1))

/-- The `ATTRIBUTES` registry.  The `value_map` keys are taken verbatim from
the source.  The numeric bounds `min_val`/`max_val` are imported from
`dataset.legacy.const`, which is absent from the source snapshot; they are
modelled from the spec (§3): exists 0..1, type 1..5, size 0..5, angle 0..7,
color 0..9 — these agree with the `value_map` key ranges in the source. -/
def attributeOf (name : String) : Option Attribute :=
  if name = "exists" then
    some ⟨"exists", 0, 0, 1, [0, 1]⟩
  else if name = "type" then
    some ⟨"type", 1, 1, 5, [1, 2, 3, 4, 5]⟩
  else if name = "size" then
    some ⟨"size", 2, 0, 5, [0, 1, 2, 3, 4, 5]⟩
  else if name = "angle" then
    some ⟨"angle", 3, 0, 7, [0, 1, 2, 3, 4, 5, 6, 7]⟩
  else if name = "color" then
    some ⟨"color", 4, 0, 9, [0, 1, 2, 3, 4, 5, 6, 7, 8, 9]⟩
  else none

/-- Pointwise update of one tensor entry (value-semantics rendering of
`self.tensor[row, col, index] = value`). -/
def Tensor.set (t : Tensor) (row col : Fin 3) (index : Fin 5) (value : ℤ) :
    Tensor :=
  fun r c i => if r = row ∧ c = col ∧ i = index then value else t r c i

/-- `TensorPanel.get_attr`: read one attribute entry; unknown attribute
names raise `KeyError` from the dict lookup. -/
def Panel.getAttr (p : Panel) (row col : Fin 3) (attrName : String) :
    Except PyErr ℤ :=
  match attributeOf attrName with
  | none => .error .keyError
  | some a => .ok (p.tensor row col a.index)

/-- `TensorPanel.set_attr`: validate, then write.  The write happens only
after validation succeeds, so a validation failure leaves the panel
untouched (the caller keeps the old value). -/
def Panel.setAttr (p : Panel) (row col : Fin 3) (attrName : String)
    (value : ℤ) : Except PyErr Panel :=
  match attributeOf attrName with
  | none => .error .keyError
  | some a => do
    let validValue ← a.validate value
    .ok ⟨p.tensor.set row col a.index validValue⟩

/-- Number of elements of a (3,3,5) tensor (`torch.Tensor.numel`). -/
def Tensor.numel (_ : Tensor) : ℕ := 3 * 3 * 5

/-- Python truthiness of a torch tensor (`bool(tensor)`): defined only for
single-element tensors; for any other tensor it raises
`RuntimeError: Boolean value of Tensor with more than one element is
ambiguous`.  A (3,3,5) tensor has 45 elements, so the error branch is the
only reachable one. -/
def Tensor.pyBool (t : Tensor) : Except PyErr Bool :=
  if t.numel = 1 then .ok (t 0 0 0 ≠ 0) else .error .runtimeError

/-- `TensorPanel.__init__(tensor=None)`, translated faithfully: the source
guards the optional argument with `if tensor:`, which evaluates the
truthiness of the tensor.  `None` is falsy, so the no-argument call
builds a zero panel; a real (3,3,5) tensor raises `RuntimeError`. -/
def TensorPanel.init (tensor : Option Tensor) : Except PyErr Panel :=
  match tensor with
  | none => .ok ⟨Tensor.zero⟩
  | some t => do
    let b ← t.pyBool
    if b then .ok ⟨t⟩ else .ok ⟨Tensor.zero⟩

/-- `TensorPanel.clone`, translated faithfully:
`TensorPanel(self.tensor.clone())` (the torch `clone()` is a value copy).
Because `__init__` runs `if tensor:` on the copied tensor, this raises on
every panel; every embedded call site of `panel.clone()` below threads
this failure.  The constructor's docstring and the test suite expect a
deep copy instead — see the C9 result. -/
def TensorPanel.clone (p : Panel) : Except PyErr Panel :=
  TensorPanel.init (some p.tensor)

/-- Row-major list of the nine grid positions
(`[(r, c) for r in range(3) for c in range(3)]`). -/
def allPositions : List (Fin 3 × Fin 3) :=
  (List.finRange 3).flatMap fun r => (List.finRange 3).map fun c => (r, c)

/-- Modelled from the spec: `TensorPanel.get_filled_positions` is called by
the generators and documented in §4.2 of the spec but absent from the
source snapshot — "`get_filled_positions() -> list[(row,col)]` ... ordered
row-major", the positions whose cell has `exists = 1`. -/
def Panel.getFilledPositions (p : Panel) : List (Fin 3 × Fin 3) :=
  allPositions.filter fun rc => p.tensor rc.1 rc.2 0 = 1

/-- Modelled from the spec: `TensorPanel.get_empty_positions` (§4.2), the
row-major positions whose cell does not have `exists = 1`. -/
def Panel.getEmptyPositions (p : Panel) : List (Fin 3 × Fin 3) :=
  allPositions.filter fun rc => ¬ p.tensor rc.1 rc.2 0 = 1

/-! ### Tensor transforms (src/dataset/core/tensors/tensor_transforms.py) -/

/-- Index reversal `i ↦ 2 - i` on `Fin 3` (the effect of `flip` on one
dimension of a length-3 axis). -/
def rev3 : Fin 3 → Fin 3
  | 0 => 2
  | 1 => 1
  | 2 => 0

/-- `tensor.transpose(0, 1)`: swap the two grid dimensions. -/
def Tensor.transpose (t : Tensor) : Tensor := fun r c => t c r

/-- `tensor.flip(0)`: reverse the row dimension. -/
def Tensor.flip0 (t : Tensor) : Tensor := fun r c => t (rev3 r) c

/-- `tensor.flip(1)`: reverse the column dimension. -/
def Tensor.flip1 (t : Tensor) : Tensor := fun r c => t r (rev3 c)

/-- `rotate_90_clockwise(tensor, shifts)`: `shifts % 4` repetitions of
`transpose(0,1).flip(0)`.  Python `%` on a possibly negative `shifts`
with modulus 4 is non-negative, matching `Int.emod`. -/
def rotate90Clockwise (t : Tensor) (shifts : ℤ) : Tensor :=
  (fun u => u.transpose.flip0)^[((shifts % 4).toNat)] t

/-- `rotate_90_counterclockwise(tensor, shifts)`: `shifts % 4` repetitions
of `transpose(0,1).flip(1)`. -/
def rotate90Counterclockwise (t : Tensor) (shifts : ℤ) : Tensor :=
  (fun u => u.transpose.flip1)^[((shifts % 4).toNat)] t

/-- `RotationRule(step, clockwise)` construction
(src/dataset/core/rules/spatial.py): `RotationRule.__init__` calls
`SpatialRule.__init__`, which invokes
`super().__init__(rule_type="spatial", required_panels=required_panels)`;
but `Rule.__init__` (src/dataset/core/rules/base.py) has signature
`(self, attr, value=None, component_idx=0)` and rejects those keyword
arguments with a `TypeError`, so construction always raises before the
`(step, clockwise)` pair could be stored. -/
def RotationRule.construct (step : ℤ) (clockwise : Bool) :
    Except PyErr (ℤ × Bool) := do
  let _ ← (.error .typeError : Except PyErr Unit)
  .ok (step, clockwise)

/-- `RotationRule(step, clockwise).apply(panels)`
(src/dataset/core/rules/spatial.py): `result = panels[0].clone()` (an
empty list would raise `IndexError`, and the clone always raises
`RuntimeError` through the `TensorPanel.__init__` defect), then the
tensor is replaced by the rotated one. -/
def RotationRule.apply (step : ℤ) (clockwise : Bool) (panels : List Panel) :
    Except PyErr Panel :=
  match panels with
  | [] => .error .indexError
  | p :: _ => do
    let result ← TensorPanel.clone p
    if clockwise then .ok ⟨rotate90Clockwise result.tensor step⟩
    else .ok ⟨rotate90Counterclockwise result.tensor step⟩

/-! ### DistractorGenerator (src/dataset/core/generators/distractor_generator.py)

The float difficulty constants (0.8, 0.5, 0.2, thresholds 0.3, 0.7, weights
0.7/0.25/0.05 ...) are modelled as rationals; all comparisons the code makes
between them are decided identically for IEEE doubles and for the exact
rationals, since the literals are far apart relative to rounding error. -/

/-- `difficulty_mapping` of `DistractorGenerator.__init__`. -/
def difficultyMapping (s : String) : Option ℚ :=
  if s = "easy" then some (8 / 10)
  else if s = "medium" then some (5 / 10)
  else if s = "hard" then some (2 / 10)
  else none

/-- `DistractorGenerator.__init__(difficulty)`: the numerical difficulty is
`difficulty_mapping.get(difficulty, 0.5)` — an unknown string falls back
to `0.5` without raising. -/
def distractorDifficulty (difficulty : String) : ℚ :=
  (difficultyMapping difficulty).getD (5 / 10)

/-- `strategies_by_difficulty` catalog of `DistractorGenerator.__init__`. -/
def strategiesByDifficulty (tier : String) : List String :=
  if tier = "hard" then ["attribute_perturb", "entity_swap"]
  else if tier = "medium" then
    ["global_attribute_change", "rotate_all_entities", "swap_attributes",
     "entity_add", "entity_remove"]
  else if tier = "easy" then ["reflect_panel", "scramble_positions"]
  else []

/-- `DistractorGenerator._get_difficulty_level`: numerical difficulty to
tier name. -/
def getDifficultyLevel (difficulty : ℚ) : String :=
  if difficulty ≤ 3 / 10 then "hard"
  else if difficulty ≤ 7 / 10 then "medium"
  else "easy"

/-- Tier weights returned by `_calculate_strategy_weights`. -/
structure StrategyWeights where
  hard : ℚ
  medium : ℚ
  easy : ℚ
  deriving DecidableEq

/-- `DistractorGenerator._calculate_strategy_weights`. -/
def calculateStrategyWeights (difficultyLevel : String) : StrategyWeights :=
  if difficultyLevel = "hard" then ⟨7 / 10, 25 / 100, 5 / 100⟩
  else if difficultyLevel = "medium" then ⟨3 / 10, 5 / 10, 2 / 10⟩
  else ⟨5 / 100, 35 / 100, 6 / 10⟩

/-- `DistractorGenerator._swap_entity(panel)`: if the panel has fewer than
two filled positions, return the input panel unchanged; otherwise swap the
two entity vectors at the two positions drawn by `random.sample`.  The
random draw is modelled by the `pos1`/`pos2` parameters (the source draws
them from the filled positions only after the length check). -/
def swapEntity (panel : Panel) (pos1 pos2 : Fin 3 × Fin 3) : Panel :=
  let filledPositions := panel.getFilledPositions
  if filledPositions.length < 2 then panel
  else
    let entity1 := panel.tensor pos1.1 pos1.2
    let entity2 := panel.tensor pos2.1 pos2.2
    ⟨fun r c =>
      if (r, c) = pos1 then entity2
      else if (r, c) = pos2 then entity1
      else panel.tensor r c⟩

/-- `DistractorGenerator._swap_attributes(panel)`: clone the panel; with
fewer than two filled positions return the clone as-is; otherwise swap the
chosen attribute between up to
`min(len(filled) // 2, 2 + int(difficulty * 3))` pairs of entities.  The
random draws (the attribute and the sequence of disjoint position pairs)
are modelled by the `attrName` and `pairs` parameters.  The method starts
with `result = panel.clone()`, which always raises `RuntimeError` through
the `TensorPanel.__init__` defect, before the entity-count check. -/
def swapAttributes (panel : Panel) (difficulty : ℚ) (attrName : String)
    (pairs : List ((Fin 3 × Fin 3) × (Fin 3 × Fin 3))) : Except PyErr Panel := do
  let result ← TensorPanel.clone panel
  let filledPositions := result.getFilledPositions
  if filledPositions.length < 2 then .ok result
  else
    let numSwaps := min (filledPositions.length / 2)
      (2 + (difficulty * 3).floor.toNat)
    (pairs.take numSwaps).foldlM (fun acc pair => do
      let value1 ← acc.getAttr pair.1.1 pair.1.2 attrName
      let value2 ← acc.getAttr pair.2.1 pair.2.2 attrName
      let acc1 ← acc.setAttr pair.1.1 pair.1.2 attrName value2
      acc1.setAttr pair.2.1 pair.2.2 attrName value1) result

/-! ### RowGenerator (src/dataset/core/generators/row_generator.py) -/

/-- Modelled from the spec: the tensor-model rule interface that
`RowGenerator` consumes (§4.3 — "All rules implement
`apply(panels: list[Panel]) -> Panel`", with a `required_panels` arity
field).  The tensor-model attribute rule classes with this interface are
absent from the source snapshot (the files under `core/rules` carry the
legacy AoT interface); rules are therefore kept abstract here, as total
transformations on panel lists. -/
structure TRule where
  requiredPanels : ℕ
  apply : List Panel → Panel

/-- `RowGenerator.__init__(rules)`.  The derived fields below are computed
from `rules` exactly as in the constructor. -/
structure RowGenerator where
  rules : List TRule

/-- `self._required_panels = max([r.required_panels for r in rules])`.
Python's `max` raises on an empty list; the fold below agrees with it on
every non-empty list (all arities are non-negative). -/
def RowGenerator.requiredPanels (rg : RowGenerator) : ℕ :=
  (rg.rules.map TRule.requiredPanels).foldl max 0

/-- `self._one_panel_rules`: the rules with `required_panels == 1`. -/
def RowGenerator.onePanelRules (rg : RowGenerator) : List TRule :=
  rg.rules.filter fun r => r.requiredPanels = 1

/-- `self._two_panel_rules`: the rules with `required_panels == 2`. -/
def RowGenerator.twoPanelRules (rg : RowGenerator) : List TRule :=
  rg.rules.filter fun r => r.requiredPanels = 2

/-- `RowGenerator._apply_one_panel_rules`: `panel = panel.clone()` — which
always raises `RuntimeError` through the `TensorPanel.__init__` defect —
then fold the one-panel rules over the clone in order. -/
def RowGenerator.applyOnePanelRules (rg : RowGenerator) (panel : Panel) :
    Except PyErr Panel := do
  let panel ← TensorPanel.clone panel
  .ok (rg.onePanelRules.foldl (fun acc r => r.apply [acc]) panel)

/-- `RowGenerator._apply_two_panel_rules`: clone both input panels (each
clone always raises `RuntimeError` through the `TensorPanel.__init__`
defect); each two-panel rule is then applied to the clones and the loop
keeps only the LAST rule's output (`panel = rule.apply([panel1, panel2])`
rebinds `panel` each iteration).  With no two-panel rule the source would
raise `NameError` (`panel` unbound); the caller only invokes this when
the list is non-empty, which the `none` result models. -/
def RowGenerator.applyTwoPanelRules (rg : RowGenerator)
    (panel1 panel2 : Panel) : Except PyErr (Option Panel) := do
  let panel1 ← TensorPanel.clone panel1
  let panel2 ← TensorPanel.clone panel2
  .ok (rg.twoPanelRules.foldl (fun _ r => some (r.apply [panel1, panel2])) none)

/-- `RowGenerator.generate(seed_panels)`.  `row = [None, None, None]`
followed by the slice assignment `row[:len(seed_panels)] = seed_panels[:]`
(which EXTENDS the list beyond 3 entries when more than 3 seeds are
given), then the one-panel chain `seed → col2 → col3` and, if present,
the two-panel overwrite of column 3 from columns 1 and 2.  The whole body
sits in a `try:` whose `except` re-raises any exception as
`ValueError(f"Error generating row: {e}")` — including the `RuntimeError`
from the clones inside the rule-application helpers, and the
`AttributeError` from `.clone()` on a `None` row entry. -/
def RowGenerator.generate (rg : RowGenerator) (seedPanels : List Panel) :
    Except PyErr (List (Option Panel)) :=
  if seedPanels.length < rg.requiredPanels then
    .error .valueError
  else
    let row0 : List (Option Panel) :=
      seedPanels.map some ++ List.replicate (3 - seedPanels.length) none
    let body : Except PyErr (List (Option Panel)) := do
      let row1 ←
        if rg.onePanelRules.isEmpty then pure row0
        else do
          let col1 := seedPanels.headD Panel.zero
          let col2 ← rg.applyOnePanelRules col1
          let col3 ← rg.applyOnePanelRules col2
          pure (((row0.set 0 (some col1)).set 1 (some col2)).set 2 (some col3))
      if rg.twoPanelRules.isEmpty then pure row1
      else
        match row1.getD 0 none, row1.getD 1 none with
        | some p1, some p2 => do
          let r ← rg.applyTwoPanelRules p1 p2
          pure (row1.set 2 r)
        | _, _ => .error .attributeError
    match body with
    | .ok row => .ok row
    | .error _ => .error .valueError

/-- Modelled from the spec: a minimal unary rule instance of the §4.3
interface (`required_panels = 1`, `apply` returning a panel), used as
concrete configuration data; the tensor-model rule classes that would
populate a `RowGenerator` are absent from the source snapshot.  It
returns its input panel. -/
def identityUnaryTRule : TRule := ⟨1, fun panels => panels.headD Panel.zero⟩

/-- A minimal two-panel rule instance for concrete checks (the tensor-model
binary arithmetic rule class is absent from the source snapshot): arity 2,
yielding the first input panel. -/
def firstPanelBinaryTRule : TRule := ⟨2, fun panels => panels.headD Panel.zero⟩

/-! ### ConstrainedPanelSampler
(src/dataset/core/generators/constrained_panel_sampler.py) -/

/-- `random.randint(a, b)`: raises `ValueError` when the range is empty
(`a > b`), otherwise returns some value in `[a, b]`.  The draw is
modelled by the `pick` oracle: `a + pick % (b - a + 1)` ranges exactly
over `[a, b]`. -/
def randint (a b : ℤ) (pick : ℕ) : Except PyErr ℤ :=
  if b < a then .error .valueError
  else .ok (a + (pick : ℤ) % (b - a + 1))

/-- `random.sample(population, k)`: raises `ValueError` when `k` is
negative or exceeds the population size, otherwise returns `k` distinct
elements.  The draw is modelled by rotating the population by the `pick`
oracle and taking a prefix. -/
def pySample {α : Type} (population : List α) (k : ℤ) (pick : ℕ) :
    Except PyErr (List α) :=
  if k < 0 ∨ (population.length : ℤ) < k then .error .valueError
  else .ok ((population.rotate pick).take k.toNat)

/-- The constraints record consumed by `ConstrainedPanelSampler`:
`min_entities`, `max_entities` and `attribute_ranges`
(`attr_name ↦ {min, max}`). -/
structure Constraints where
  min_entities : ℤ
  max_entities : ℤ
  attribute_ranges : List (String × ℤ × ℤ)

/-- The inner loop of `sample_panel` over `attribute_ranges.items()` for
one entity position: ranges whose name is not in `ATTRIBUTES` are
skipped; for the others a uniform draw in `[min, max]` is validated and
stored by `set_attr`.  `picks` is the oracle stream for this position. -/
def setRangeAttrs (panel : Panel) (row col : Fin 3)
    (ranges : List (String × ℤ × ℤ)) (picks : ℕ → ℕ) (base : ℕ) :
    Except PyErr Panel :=
  match ranges with
  | [] => .ok panel
  | (attrName, lo, hi) :: rest =>
    if (attributeOf attrName).isSome then do
      let attrValue ← randint lo hi (picks base)
      let panel1 ← panel.setAttr row col attrName attrValue
      setRangeAttrs panel1 row col rest picks (base + 1)
    else
      setRangeAttrs panel row col rest picks base

/-- The outer loop of `sample_panel` over the sampled entity positions:
set `exists = 1` then fill the constrained attributes. -/
def placeEntities (panel : Panel) (positions : List (Fin 3 × Fin 3))
    (ranges : List (String × ℤ × ℤ)) (picks : ℕ → ℕ) (base : ℕ) :
    Except PyErr Panel :=
  match positions with
  | [] => .ok panel
  | (row, col) :: rest => do
    let panel1 ← panel.setAttr row col "exists" 1
    let panel2 ← setRangeAttrs panel1 row col ranges picks base
    placeEntities panel2 rest ranges picks (base + ranges.length)

/-- `ConstrainedPanelSampler.sample_panel`: draw an entity count in
`[min_entities, max_entities]` (a `ValueError` when that interval is
empty), sample that many distinct positions, and fill them under the
attribute-range constraints.  `picks` is the PRNG oracle stream. -/
def samplePanel (c : Constraints) (picks : ℕ → ℕ) : Except PyErr Panel := do
  let nEntities ← randint c.min_entities c.max_entities (picks 0)
  let entityPositions ← pySample allPositions nEntities (picks 1)
  placeEntities ⟨Tensor.zero⟩ entityPositions c.attribute_ranges picks 2

/-! ### PuzzleGenerator (src/dataset/core/generators/puzzle_generator.py) -/

/-- Lines 105–116 of `PuzzleGenerator.generate`: build
`candidates = [answer] + distractors`, shuffle an index list, locate the
answer (`target_idx = indices.index(0)`), and materialise the shuffled
candidates (`[candidates[idx] for idx in indices]`).  The shuffled index
list is the `indices` parameter (any permutation of
`range(len(candidates))`). -/
def assembleCandidates (answer : Panel) (distractors : List Panel)
    (indices : List ℕ) : List Panel × ℕ :=
  let candidates := answer :: distractors
  let targetIdx := indices.indexOf 0
  let shuffledCandidates := indices.map fun idx => candidates.getD idx Panel.zero
  (shuffledCandidates, targetIdx)

/-- `PuzzleGenerator._generate_grid`: three rows, each from a freshly
sampled seed panel; any row failure is re-raised as a `ValueError`.  The
row construction (`self.row_generator.generate([seed_panel])`) is the
`rowApply` parameter, since the rule set behind it is configuration data;
`picks i` is the PRNG oracle for row `i`. -/
def generateGrid (c : Constraints)
    (rowApply : Panel → Except PyErr (List Panel)) (picks : ℕ → ℕ → ℕ) :
    Except PyErr (List (List Panel)) := do
  let mkRow : ℕ → Except PyErr (List Panel) := fun i =>
    match (do
        let seed ← samplePanel c (picks i)
        rowApply seed : Except PyErr (List Panel)) with
    | .ok row => .ok row
    | .error _ => .error .valueError
  let row0 ← mkRow 0
  let row1 ← mkRow 1
  let row2 ← mkRow 2
  .ok [row0, row1, row2]

/-- One iteration of the `try:` block of `PuzzleGenerator.generate`
(one puzzle attempt): build the grid, take `grid[2][2]` as the answer,
generate 7 distractors (`distract`, kept abstract: the strategy mix is
random and irrelevant to the control flow), and assemble the shuffled
candidates.  The puzzle value is the `(candidates, target_idx)` pair;
`k` is the global attempt index selecting the oracle draws. -/
def puzzleAttempt (c : Constraints)
    (rowApply : Panel → Except PyErr (List Panel))
    (distract : Panel → List Panel) (shuffleIdx : ℕ → List ℕ)
    (picks : ℕ → ℕ → ℕ → ℕ) (k : ℕ) : Except PyErr (List Panel × ℕ) := do
  let grid ← generateGrid c rowApply (picks k)
  let answer := (grid.getD 2 []).getD 2 Panel.zero
  let distractors := distract answer
  .ok (assembleCandidates answer distractors (shuffleIdx k))

/-- The attempt counters printed by `PuzzleGenerator.generate`
(`attempt_stats`). -/
structure AttemptStats where
  total : ℕ
  successful : ℕ
  failed : ℕ
  deriving DecidableEq, Repr

/-- The inner retry loop of `PuzzleGenerator.generate`
(`for attempt in range(max_attempts_per_puzzle)`): every attempt
increments `total`; an exception increments `failed` and retries; a
success increments `successful` and breaks.  The attempt body is indexed
by the global attempt count, mirroring the shared PRNG stream. -/
def tryAttempts {α : Type} (maxAttempts : ℕ) (body : ℕ → Except PyErr α)
    (stats : AttemptStats) : Option α × AttemptStats :=
  match maxAttempts with
  | 0 => (none, stats)
  | remaining + 1 =>
    match body stats.total with
    | .ok p =>
      (some p, { stats with total := stats.total + 1,
                            successful := stats.successful + 1 })
    | .error _ =>
      tryAttempts remaining body
        { stats with total := stats.total + 1, failed := stats.failed + 1 }

/-- The outer loop of `PuzzleGenerator.generate`
(`for i in range(num_puzzles)`), threading the attempt statistics. -/
def generateFrom {α : Type} (numPuzzles maxAttempts : ℕ)
    (body : ℕ → Except PyErr α) (stats : AttemptStats) :
    List α × AttemptStats :=
  match numPuzzles with
  | 0 => ([], stats)
  | n + 1 =>
    let (res, stats1) := tryAttempts maxAttempts body stats
    let (rest, stats2) := generateFrom n maxAttempts body stats1
    (match res with
     | some p => p :: rest
     | none => rest, stats2)

/-- `PuzzleGenerator.generate(num_puzzles, max_attempts_per_puzzle)`:
run the bounded retry loop for each requested puzzle, then print the
closing statistics.  The success-rate line divides by the total attempt
count (`attempt_stats['successful']/attempt_stats['total']*100`, line 162
of puzzle_generator.py), so a call in which no attempt ran
(`num_puzzles = 0` or `max_attempts_per_puzzle = 0`) raises
`ZeroDivisionError`; otherwise the collected puzzles and statistics are
returned and no exception escapes the loop. -/
def PuzzleGenerator.generate {α : Type} (numPuzzles maxAttempts : ℕ)
    (body : ℕ → Except PyErr α) : Except PyErr (List α × AttemptStats) :=
  let result := generateFrom numPuzzles maxAttempts body ⟨0, 0, 0⟩
  if result.2.total = 0 then .error .zeroDivisionError
  else .ok result

/-! ### ProgressionRule over AoT layouts (src/dataset/core/rules/progression.py)

The rule files under `core/rules` operate on And-Or-Tree panels: a panel's
relevant component is a layout node carrying a uniformity flag and a list of
entity children, each child holding ordinal value levels for type / size /
color.  Only the parts that `_apply_to_entity_attribute` touches are
modelled.  In-place mutation of the source panel is rendered by returning
the source's new value alongside the target. -/

/-- The entity attributes handled by the `Type`/`Size`/`Color` branch of
`ProgressionRule.apply`. -/
inductive EntityAttrName where
  | typeAttr : EntityAttrName
  | sizeAttr : EntityAttrName
  | colorAttr : EntityAttrName
  deriving DecidableEq, Repr

/-- An AoT entity: its ordinal value levels. -/
structure AotEntity where
  typeLevel : ℤ
  sizeLevel : ℤ
  colorLevel : ℤ
  deriving DecidableEq, Repr

/-- `getattr(entity, attr_name).get_value_level()`. -/
def AotEntity.getValueLevel (e : AotEntity) : EntityAttrName → ℤ
  | .typeAttr => e.typeLevel
  | .sizeAttr => e.sizeLevel
  | .colorAttr => e.colorLevel

/-- `getattr(entity, attr_name).set_value_level(v)`. -/
def AotEntity.setValueLevel (e : AotEntity) : EntityAttrName → ℤ → AotEntity
  | .typeAttr, v => { e with typeLevel := v }
  | .sizeAttr, v => { e with sizeLevel := v }
  | .colorAttr, v => { e with colorLevel := v }

/-- An AoT layout node: uniformity flag and entity children. -/
structure AotLayout where
  uniformity : Bool
  children : List AotEntity
  deriving DecidableEq, Repr

/-- `ProgressionRule.apply` restricted to the
`attr in ["Type", "Size", "Color"]` branch
(`_apply_to_entity_attribute`, lines 103–121), with the surrounding
`apply` bookkeeping: the target starts as `copy.deepcopy(source_panel)`
(taken BEFORE any mutation), then

* `old = source.children[0].attr` (`IndexError` on no children);
* if `self.state["first_col"]` and the source layout is NOT uniform, every
  entity of the SOURCE layout is overwritten in place with `old`;
* every entity of the target layout gets `old + self.value`;
* the `first_col` flag toggles.

The result is `(source after the call, target, new first_col flag)`. -/
def progressionApplyEntityAttribute (value : ℤ) (firstCol : Bool)
    (attrName : EntityAttrName) (source : AotLayout) :
    Except PyErr (AotLayout × AotLayout × Bool) :=
  match source.children with
  | [] => .error .indexError
  | e0 :: _ =>
    let oldValueLevel := e0.getValueLevel attrName
    let source' :=
      if firstCol ∧ source.uniformity = false then
        { source with
            children := source.children.map
              fun e => e.setValueLevel attrName oldValueLevel }
      else source
    let target : AotLayout :=
      { source with
          children := source.children.map
            fun e => e.setValueLevel attrName (oldValueLevel + value) }
    .ok (source', target, !firstCol)

/-! ## Verified properties -/

/-- C9.  `TensorPanel.clone()` never returns a deep copy: the constructor
guards its optional tensor with `if tensor:`, and the truthiness of a
(3,3,5) torch tensor raises
`RuntimeError: Boolean value of Tensor with more than one element is
ambiguous`, so `clone()` raises on EVERY panel (contradicting the
constructor's docstring and the test-suite's pervasive `clone()` calls). -/
theorem clone_always_raises (p : Panel) :
    TensorPanel.clone p = .error .runtimeError := rfl

/-- C6.  In the source, `RotationRule(1, clockwise=True)` can never be
applied four times: construction already raises `TypeError`
(`SpatialRule.__init__` passes `rule_type`/`required_panels` keyword
arguments that `Rule.__init__` rejects), and even a hand-built instance's
`apply` raises `RuntimeError` at `panels[0].clone()` (the C9 defect), so
no application ever returns a panel.  The claim's mathematical content is
true of the underlying transform the rule wraps:
`rotate_90_clockwise` (transpose then flip) applied four times is the
identity on every (3,3,5) tensor. -/
theorem rotation_rule_raises_but_rotation_has_order_four (p : Panel) :
    RotationRule.construct 1 true = .error .typeError
    ∧ RotationRule.apply 1 true [p] = .error .runtimeError
    ∧ rotate90Clockwise (rotate90Clockwise (rotate90Clockwise
        (rotate90Clockwise p.tensor 1) 1) 1) 1 = p.tensor := by
  refine ⟨rfl, rfl, ?_⟩
  funext r c
  fin_cases r <;> fin_cases c <;> rfl

/-- C10.  Constructing `DistractorGenerator` with an unrecognised
difficulty string does not raise: `difficulty_mapping.get(difficulty, 0.5)`
silently yields numerical difficulty `0.5`, identical to the `"medium"`
setting, whose tier level is `"medium"` with strategy weights
hard 0.3 / medium 0.5 / easy 0.2. -/
theorem unknown_difficulty_defaults_to_medium (s : String)
    (h1 : s ≠ "easy") (h2 : s ≠ "medium") (h3 : s ≠ "hard") :
    distractorDifficulty s = 5 / 10
    ∧ distractorDifficulty s = distractorDifficulty "medium"
    ∧ getDifficultyLevel (distractorDifficulty s) = "medium"
    ∧ calculateStrategyWeights (getDifficultyLevel (distractorDifficulty s))
        = ⟨3 / 10, 5 / 10, 2 / 10⟩ := by
  have hd : distractorDifficulty s = 5 / 10 := by
    unfold distractorDifficulty difficultyMapping
    rw [if_neg h1, if_neg h2, if_neg h3]
    rfl
  have hl : getDifficultyLevel (5 / 10) = "medium" := by
    unfold getDifficultyLevel
    rw [if_neg (by norm_num), if_pos (by norm_num)]
  refine ⟨hd, ?_, ?_, ?_⟩
  · rw [hd]; rfl
  · rw [hd, hl]
  · rw [hd, hl]
    unfold calculateStrategyWeights
    rw [if_neg (by decide), if_pos rfl]

/-- Witness for C10 at the concrete unknown string `"extreme"`. -/
theorem unknown_difficulty_defaults_to_medium_witness :
    ("extreme" ≠ "easy" ∧ "extreme" ≠ "medium" ∧ "extreme" ≠ "hard")
    ∧ (distractorDifficulty "extreme" = 5 / 10
       ∧ distractorDifficulty "extreme" = distractorDifficulty "medium"
       ∧ getDifficultyLevel (distractorDifficulty "extreme") = "medium"
       ∧ calculateStrategyWeights
           (getDifficultyLevel (distractorDifficulty "extreme"))
           = ⟨3 / 10, 5 / 10, 2 / 10⟩) :=
  ⟨⟨by decide, by decide, by decide⟩,
   unknown_difficulty_defaults_to_medium "extreme"
     (by decide) (by decide) (by decide)⟩

/-- C8 counterexample.  On the empty panel (zero entities, well below the
two-entity threshold), `_swap_attributes` does not return a no-op clone:
its very first statement `result = panel.clone()` raises `RuntimeError`
through the `TensorPanel.__init__` defect, so the strategy raises instead
of degrading gracefully. -/
theorem swap_attributes_raises_on_degenerate_panel :
    (Panel.zero.getFilledPositions.length < 2)
    ∧ swapAttributes Panel.zero (5 / 10) "color" []
        = .error .runtimeError := by
  exact ⟨by decide, rfl⟩

/-- C8 amended.  With fewer than two filled positions, `_swap_entity`
returns its input panel unchanged without raising; `_swap_attributes`,
whose first statement clones the panel, instead raises `RuntimeError` on
every panel (the C9 defect) and never returns the no-op clone. -/
theorem swap_entity_noop_swap_attributes_raise (panel : Panel)
    (pos1 pos2 : Fin 3 × Fin 3) (difficulty : ℚ) (attrName : String)
    (pairs : List ((Fin 3 × Fin 3) × (Fin 3 × Fin 3)))
    (h : panel.getFilledPositions.length < 2) :
    swapEntity panel pos1 pos2 = panel
    ∧ swapAttributes panel difficulty attrName pairs
        = .error .runtimeError := by
  constructor
  · unfold swapEntity
    rw [if_pos h]
  · rfl

/-- Witness for C8 on a one-entity panel. -/
theorem swap_entity_noop_swap_attributes_raise_witness :
    ((⟨Tensor.zero.set 0 0 0 1⟩ : Panel).getFilledPositions.length < 2)
    ∧ (swapEntity ⟨Tensor.zero.set 0 0 0 1⟩ (0, 0) (1, 1)
         = ⟨Tensor.zero.set 0 0 0 1⟩
       ∧ swapAttributes ⟨Tensor.zero.set 0 0 0 1⟩ (5 / 10) "color"
           [((0, 0), (1, 1))] = .error .runtimeError) :=
  ⟨by decide,
   swap_entity_noop_swap_attributes_raise ⟨Tensor.zero.set 0 0 0 1⟩
     (0, 0) (1, 1) (5 / 10) "color" [((0, 0), (1, 1))] (by decide)⟩

/-- C3.  `next_value(attr, current, step)` computes
`min + ((current - min + step) mod range_size)` with
`range_size = max - min + 1`, and for any in-range value the `step` /
`-step` round trip is the identity — pure modular wraparound, no clamping
for any integer step. -/
theorem next_value_modular_roundtrip (a : Attribute) (v step : ℤ)
    (hrange : a.min_val ≤ a.max_val) (hlo : a.min_val ≤ v)
    (hhi : v ≤ a.max_val) :
    a.nextValue v step
      = a.min_val + ((v - a.min_val + step) % (a.max_val - a.min_val + 1))
    ∧ a.nextValue (a.nextValue v step) (-step) = v := by
  refine ⟨rfl, ?_⟩
  unfold Attribute.nextValue
  set R := a.max_val - a.min_val + 1 with hR
  have hRpos : 0 < R := by omega
  have hbase : a.min_val + (v - a.min_val + step) % R - a.min_val + -step
      = (v - a.min_val + step) % R - step := by ring
  rw [hbase]
  have hmod : ((v - a.min_val + step) % R - step) % R = (v - a.min_val) % R := by
    rw [Int.sub_emod, Int.emod_emod_of_dvd _ dvd_rfl, ← Int.sub_emod]
    congr 1
    ring
  rw [hmod, Int.emod_eq_of_lt (by omega) (by omega)]
  ring

/-- Witness for C3 at the `angle` attribute, `v = 5`, `step = -3`. -/
theorem next_value_modular_roundtrip_witness :
    ((⟨"angle", 3, 0, 7, [0, 1, 2, 3, 4, 5, 6, 7]⟩ : Attribute).min_val
        ≤ (⟨"angle", 3, 0, 7, [0, 1, 2, 3, 4, 5, 6, 7]⟩ : Attribute).max_val
     ∧ (⟨"angle", 3, 0, 7, [0, 1, 2, 3, 4, 5, 6, 7]⟩ : Attribute).min_val ≤ 5
     ∧ (5 : ℤ) ≤ (⟨"angle", 3, 0, 7, [0, 1, 2, 3, 4, 5, 6, 7]⟩ : Attribute).max_val)
    ∧ ((⟨"angle", 3, 0, 7, [0, 1, 2, 3, 4, 5, 6, 7]⟩ : Attribute).nextValue 5 (-3)
        = (⟨"angle", 3, 0, 7, [0, 1, 2, 3, 4, 5, 6, 7]⟩ : Attribute).min_val
          + ((5 - (⟨"angle", 3, 0, 7, [0, 1, 2, 3, 4, 5, 6, 7]⟩ : Attribute).min_val + -3)
             % ((⟨"angle", 3, 0, 7, [0, 1, 2, 3, 4, 5, 6, 7]⟩ : Attribute).max_val
                - (⟨"angle", 3, 0, 7, [0, 1, 2, 3, 4, 5, 6, 7]⟩ : Attribute).min_val + 1))
       ∧ (⟨"angle", 3, 0, 7, [0, 1, 2, 3, 4, 5, 6, 7]⟩ : Attribute).nextValue
           ((⟨"angle", 3, 0, 7, [0, 1, 2, 3, 4, 5, 6, 7]⟩ : Attribute).nextValue 5 (-3))
           (-(-3)) = 5) :=
  ⟨⟨by decide, by decide, by decide⟩,
   next_value_modular_roundtrip ⟨"angle", 3, 0, 7, [0, 1, 2, 3, 4, 5, 6, 7]⟩
     5 (-3) (by decide) (by decide) (by decide)⟩

/-- C4.  `set_attr` validates through the attribute's declared ordinal set
(the `value_map` keys): an out-of-set value raises the
`InvalidAttributeValue` `ValueError` before any write (so the panel is
unchanged — no silent clamping), while an in-set value is stored and read
back verbatim by `get_attr`. -/
theorem set_attr_validates_or_stores (p : Panel) (row col : Fin 3)
    (name : String) (a : Attribute) (v : ℤ)
    (ha : attributeOf name = some a) :
    (v ∉ a.valueKeys → p.setAttr row col name v = .error .valueError)
    ∧ (v ∈ a.valueKeys →
        p.setAttr row col name v = .ok ⟨p.tensor.set row col a.index v⟩
        ∧ Panel.getAttr ⟨p.tensor.set row col a.index v⟩ row col name
            = .ok v) := by
  constructor
  · intro hv
    simp only [Panel.setAttr, ha, Attribute.validate, if_neg hv]
    rfl
  · intro hv
    constructor
    · simp only [Panel.setAttr, ha, Attribute.validate, if_pos hv]
      rfl
    · simp only [Panel.getAttr, ha, Tensor.set]
      simp

/-- Witness for C4 at the `color` attribute on the empty panel:
value 11 is rejected, value 4 is stored and read back. -/
theorem set_attr_validates_or_stores_witness :
    (attributeOf "color" = some ⟨"color", 4, 0, 9, [0, 1, 2, 3, 4, 5, 6, 7, 8, 9]⟩)
    ∧ ((11 : ℤ) ∉ [(0 : ℤ), 1, 2, 3, 4, 5, 6, 7, 8, 9]
       ∧ Panel.zero.setAttr 1 2 "color" 11 = .error .valueError)
    ∧ ((4 : ℤ) ∈ [(0 : ℤ), 1, 2, 3, 4, 5, 6, 7, 8, 9]
       ∧ Panel.zero.setAttr 1 2 "color" 4
           = .ok ⟨Panel.zero.tensor.set 1 2 4 4⟩
       ∧ Panel.getAttr ⟨Panel.zero.tensor.set 1 2 4 4⟩ 1 2 "color" = .ok 4) :=
  ⟨by decide,
   ⟨by decide,
    (set_attr_validates_or_stores Panel.zero 1 2 "color"
      ⟨"color", 4, 0, 9, [0, 1, 2, 3, 4, 5, 6, 7, 8, 9]⟩ 11 (by decide)).1
      (by decide)⟩,
   ⟨by decide,
    (set_attr_validates_or_stores Panel.zero 1 2 "color"
      ⟨"color", 4, 0, 9, [0, 1, 2, 3, 4, 5, 6, 7, 8, 9]⟩ 4 (by decide)).2
      (by decide)⟩⟩

/-- C1.  After assembling `candidates = [answer] + distractors` with the
answer `grid[2][2]` and shuffling through any permutation `indices` of
`range(len(candidates))`, the candidate at position
`target_idx = indices.index(0)` is the answer panel itself (hence
structurally equal to it). -/
theorem shuffled_candidate_at_target_is_answer
    (grid : Fin 3 → Fin 3 → Panel) (distractors : List Panel)
    (indices : List ℕ)
    (h : indices.Perm (List.range (distractors.length + 1))) :
    ((assembleCandidates (grid 2 2) distractors indices).1).getD
        ((assembleCandidates (grid 2 2) distractors indices).2) Panel.zero
      = grid 2 2 := by
  have h0 : (0 : ℕ) ∈ indices :=
    h.mem_iff.mpr (List.mem_range.mpr (Nat.succ_pos _))
  have hlt : indices.indexOf 0 < indices.length :=
    List.indexOf_lt_length.mpr h0
  unfold assembleCandidates
  have hmaplen : indices.indexOf 0 < (indices.map
      fun idx => ((grid 2 2) :: distractors).getD idx Panel.zero).length := by
    simpa using hlt
  rw [List.getD_eq_getElem _ _ hmaplen, List.getElem_map,
    List.getElem_indexOf hlt]
  rfl

/-- Witness for C1 with one distractor and the shuffle `[1, 0]`. -/
theorem shuffled_candidate_at_target_is_answer_witness :
    (([1, 0] : List ℕ).Perm (List.range ([Panel.zero].length + 1)))
    ∧ ((assembleCandidates ((fun _ _ => ⟨Tensor.zero.set 0 0 0 1⟩ :
          Fin 3 → Fin 3 → Panel) 2 2) [Panel.zero] [1, 0]).1).getD
        ((assembleCandidates ((fun _ _ => ⟨Tensor.zero.set 0 0 0 1⟩ :
          Fin 3 → Fin 3 → Panel) 2 2) [Panel.zero] [1, 0]).2) Panel.zero
      = (fun _ _ => ⟨Tensor.zero.set 0 0 0 1⟩ : Fin 3 → Fin 3 → Panel) 2 2 :=
  ⟨by decide,
   shuffled_candidate_at_target_is_answer
     (fun _ _ => ⟨Tensor.zero.set 0 0 0 1⟩) [Panel.zero] [1, 0] (by decide)⟩

/-- C7 counterexample.  `ProgressionRule` does NOT always leave its input
panel unchanged: on a first-column application of a `Type` progression to
a non-uniform source layout with entities at type levels 1 and 2, the
consistency-enforcement loop overwrites the SOURCE panel's second entity
in place (both entities end at level 1), so the input compares different
after the call. -/
theorem progression_mutates_nonuniform_source :
    (progressionApplyEntityAttribute 1 true .typeAttr
        ⟨false, [⟨1, 0, 0⟩, ⟨2, 0, 0⟩]⟩).map (fun out => out.1)
      = .ok ⟨false, [⟨1, 0, 0⟩, ⟨1, 0, 0⟩]⟩
    ∧ (⟨false, [⟨1, 0, 0⟩, ⟨1, 0, 0⟩]⟩ : AotLayout)
        ≠ ⟨false, [⟨1, 0, 0⟩, ⟨2, 0, 0⟩]⟩ := by
  constructor
  · rfl
  · decide

/-- C7 amended.  `ProgressionRule.apply` mutates its input panel on a
first-column application to a non-uniform source layout (the
counterexample above); `ArithmeticRule` and `DistributeThreeRule` contain
analogous in-place consistency write-backs to their source layouts
(arithmetic.py lines 112–115, distribute_three.py lines 142–144), so no
blanket input-immutability holds for the rule family.  What does hold:
whenever the source layout is uniform, or the application is not a
first-column one, `ProgressionRule.apply` leaves its input unchanged. -/
theorem progression_preserves_uniform_source (value : ℤ) (firstCol : Bool)
    (attrName : EntityAttrName) (source : AotLayout)
    (h : source.uniformity = true ∨ firstCol = false) :
    ∀ out, progressionApplyEntityAttribute value firstCol attrName source
        = .ok out → out.1 = source := by
  intro out hout
  obtain ⟨u, children⟩ := source
  cases children with
  | nil => exact absurd hout (by simp [progressionApplyEntityAttribute])
  | cons e0 rest =>
    have hcond : ¬ (firstCol = true ∧ u = false) := by
      rcases h with h | h
      · simp only [] at h
        rw [h]
        simp
      · rw [h]
        simp
    simp only [progressionApplyEntityAttribute, if_neg hcond] at hout
    injection hout with h2
    rw [← h2]

/-- Witness for C7's amended claim on a uniform two-entity layout. -/
theorem progression_preserves_uniform_source_witness :
    ((⟨true, [⟨1, 0, 0⟩, ⟨2, 0, 0⟩]⟩ : AotLayout).uniformity = true
      ∨ true = false)
    ∧ ((⟨true, [⟨1, 0, 0⟩, ⟨2, 0, 0⟩]⟩ : AotLayout),
        (⟨true, [⟨2, 0, 0⟩, ⟨2, 0, 0⟩]⟩ : AotLayout), false).1
        = (⟨true, [⟨1, 0, 0⟩, ⟨2, 0, 0⟩]⟩ : AotLayout) :=
  ⟨Or.inl rfl,
   progression_preserves_uniform_source 1 true .typeAttr
     ⟨true, [⟨1, 0, 0⟩, ⟨2, 0, 0⟩]⟩ (Or.inl rfl)
     (⟨true, [⟨1, 0, 0⟩, ⟨2, 0, 0⟩]⟩, ⟨true, [⟨2, 0, 0⟩, ⟨2, 0, 0⟩]⟩, false)
     (by rfl)⟩

/-- If every attempt raises, the retry loop exhausts its bound, counting
every attempt as failed. -/
theorem tryAttempts_all_fail {α : Type} (body : ℕ → Except PyErr α)
    (hfail : ∀ k, body k = Except.error PyErr.valueError) (m : ℕ) :
    ∀ stats : AttemptStats,
      tryAttempts m body stats
        = (none, ⟨stats.total + m, stats.successful, stats.failed + m⟩) := by
  induction m with
  | zero =>
    intro stats
    simp [tryAttempts]
  | succ k ih =>
    intro stats
    simp only [tryAttempts, hfail]
    rw [ih]
    have h1 : stats.total + 1 + k = stats.total + (k + 1) := by omega
    have h2 : stats.failed + 1 + k = stats.failed + (k + 1) := by omega
    simp [h1, h2]

/-- If every attempt raises, the whole batch loop returns no puzzles and
`numPuzzles * maxAttempts` failed attempts. -/
theorem generateFrom_all_fail {α : Type} (body : ℕ → Except PyErr α)
    (hfail : ∀ k, body k = Except.error PyErr.valueError) (m : ℕ) (n : ℕ) :
    ∀ stats : AttemptStats,
      generateFrom n m body stats
        = ([], ⟨stats.total + n * m, stats.successful,
                stats.failed + n * m⟩) := by
  induction n with
  | zero =>
    intro stats
    simp [generateFrom]
  | succ k ih =>
    intro stats
    simp only [generateFrom]
    rw [tryAttempts_all_fail body hfail m stats, ih]
    have h1 : stats.total + m + k * m = stats.total + (k + 1) * m := by ring
    have h2 : stats.failed + m + k * m = stats.failed + (k + 1) * m := by ring
    simp [h1, h2]

/-- The batch loop never returns more puzzles than requested. -/
theorem generateFrom_length_le {α : Type} (m : ℕ)
    (body : ℕ → Except PyErr α) (n : ℕ) :
    ∀ stats : AttemptStats,
      ((generateFrom n m body stats).1).length ≤ n := by
  induction n with
  | zero =>
    intro stats
    simp [generateFrom]
  | succ k ih =>
    intro stats
    simp only [generateFrom]
    rcases h : tryAttempts m body stats with ⟨res, stats1⟩
    rcases res with _ | p
    · exact le_trans (ih stats1) (Nat.le_succ k)
    · simpa using ih stats1

/-- The attempt counter never decreases through the retry loop. -/
theorem tryAttempts_total_mono {α : Type} (body : ℕ → Except PyErr α)
    (m : ℕ) : ∀ stats : AttemptStats,
      stats.total ≤ (tryAttempts m body stats).2.total := by
  induction m with
  | zero =>
    intro stats
    exact le_refl _
  | succ k ih =>
    intro stats
    simp only [tryAttempts]
    rcases hb : body stats.total with e | p
    · exact le_trans (Nat.le_succ _)
        (ih { stats with total := stats.total + 1,
                         failed := stats.failed + 1 })
    · exact Nat.le_succ _

/-- With a positive attempt bound, the retry loop runs at least one
attempt. -/
theorem tryAttempts_total_pos {α : Type} (body : ℕ → Except PyErr α)
    (m : ℕ) (hm : 1 ≤ m) (stats : AttemptStats) :
    stats.total + 1 ≤ (tryAttempts m body stats).2.total := by
  obtain ⟨k, rfl⟩ : ∃ k, m = k + 1 := ⟨m - 1, by omega⟩
  simp only [tryAttempts]
  rcases hb : body stats.total with e | p
  · exact tryAttempts_total_mono body k
      { stats with total := stats.total + 1, failed := stats.failed + 1 }
  · exact le_refl _

/-- The attempt counter never decreases through the batch loop. -/
theorem generateFrom_total_mono {α : Type} (body : ℕ → Except PyErr α)
    (m : ℕ) (n : ℕ) : ∀ stats : AttemptStats,
      stats.total ≤ (generateFrom n m body stats).2.total := by
  induction n with
  | zero =>
    intro stats
    exact le_refl _
  | succ k ih =>
    intro stats
    simp only [generateFrom]
    rcases ht : tryAttempts m body stats with ⟨res, stats1⟩
    rcases hg : generateFrom k m body stats1 with ⟨rest, stats2⟩
    have h1 := tryAttempts_total_mono body m stats
    rw [ht] at h1
    have h2 := ih stats1
    rw [hg] at h2
    exact le_trans h1 h2

/-- With a positive puzzle count and attempt bound, at least one attempt
runs in total. -/
theorem generateFrom_total_pos {α : Type} (body : ℕ → Except PyErr α)
    (n m : ℕ) (hn : 1 ≤ n) (hm : 1 ≤ m) :
    1 ≤ (generateFrom n m body ⟨0, 0, 0⟩).2.total := by
  obtain ⟨k, rfl⟩ : ∃ k, n = k + 1 := ⟨n - 1, by omega⟩
  simp only [generateFrom]
  rcases ht : tryAttempts m body ⟨0, 0, 0⟩ with ⟨res, stats1⟩
  rcases hg : generateFrom k m body stats1 with ⟨rest, stats2⟩
  have h1 := tryAttempts_total_pos body m hm ⟨0, 0, 0⟩
  rw [ht] at h1
  have h2 := generateFrom_total_mono body m k stats1
  rw [hg] at h2
  have h1' : 1 ≤ stats1.total := h1
  have h2' : stats1.total ≤ stats2.total := h2
  show 1 ≤ stats2.total
  omega

/-- C5 counterexample.  `PuzzleGenerator.generate` is not unconditionally
exception-free: requesting zero puzzles runs zero attempts, and the
closing success-rate statistic `successful/total*100` then divides by
zero, raising `ZeroDivisionError`. -/
theorem puzzle_generate_zero_puzzles_raises :
    PuzzleGenerator.generate 0 10
        (puzzleAttempt ⟨5, 2, []⟩ (fun _ => .ok []) (fun _ => [])
          (fun _ => []) (fun _ _ _ => 0))
      = .error .zeroDivisionError := rfl

/-- C5 amended.  Whenever at least one attempt runs (`num_puzzles >= 1`
and `max_attempts_per_puzzle >= 1`), `PuzzleGenerator.generate` is
best-effort: every attempt exception is caught inside the bounded retry
loop, the call returns normally with at most `num_puzzles` puzzles; with
impossible entity-count constraints (`min_entities > max_entities`, on
which the sampler's `random.randint` raises `ValueError`) it returns the
empty list after `num_puzzles * max_attempts_per_puzzle` failed
attempts. -/
theorem puzzle_generate_best_effort (n m : ℕ) (hn : 1 ≤ n) (hm : 1 ≤ m) :
    (∀ (α : Type) (body : ℕ → Except PyErr α),
        ∃ (puzzles : List α) (stats : AttemptStats),
          PuzzleGenerator.generate n m body = .ok (puzzles, stats)
          ∧ puzzles.length ≤ n)
    ∧ (∀ (c : Constraints)
         (rowApply : Panel → Except PyErr (List Panel))
         (distract : Panel → List Panel) (shuffleIdx : ℕ → List ℕ)
         (picks : ℕ → ℕ → ℕ → ℕ),
        c.max_entities < c.min_entities →
        PuzzleGenerator.generate n m
            (puzzleAttempt c rowApply distract shuffleIdx picks)
          = .ok ([], ⟨n * m, 0, n * m⟩)) := by
  constructor
  · intro α body
    have hpos := generateFrom_total_pos body n m hn hm
    have hlen := generateFrom_length_le m body n (⟨0, 0, 0⟩ : AttemptStats)
    rcases hg : generateFrom n m body ⟨0, 0, 0⟩ with ⟨puzzles, stats⟩
    rw [hg] at hpos hlen
    refine ⟨puzzles, stats, ?_, hlen⟩
    unfold PuzzleGenerator.generate
    rw [hg, if_neg (by omega)]
  · intro c rowApply distract shuffleIdx picks h
    have hsp : ∀ pk : ℕ → ℕ, samplePanel c pk = .error .valueError := by
      intro pk
      unfold samplePanel randint
      rw [if_pos h]
      rfl
    have hfail : ∀ k,
        puzzleAttempt c rowApply distract shuffleIdx picks k
          = .error .valueError := by
      intro k
      unfold puzzleAttempt generateGrid
      simp [hsp, Bind.bind, Except.bind]
    have hmul : 0 < n * m := Nat.mul_pos hn hm
    unfold PuzzleGenerator.generate
    rw [generateFrom_all_fail _ hfail m n ⟨0, 0, 0⟩]
    rw [if_neg (by simp; omega)]
    simp

/-- Witness for C5: two puzzles, three attempts each, impossible
constraints `min_entities = 5 > 2 = max_entities`. -/
theorem puzzle_generate_best_effort_witness :
    ((1 : ℕ) ≤ 2 ∧ (1 : ℕ) ≤ 3
     ∧ (⟨5, 2, []⟩ : Constraints).max_entities
         < (⟨5, 2, []⟩ : Constraints).min_entities)
    ∧ PuzzleGenerator.generate 2 3
        (puzzleAttempt ⟨5, 2, []⟩ (fun _ => .ok []) (fun _ => [])
          (fun _ => []) (fun _ _ _ => 0))
        = .ok ([], ⟨2 * 3, 0, 2 * 3⟩) :=
  ⟨⟨by decide, by decide, by decide⟩,
   (puzzle_generate_best_effort 2 3 (by decide) (by decide)).2 ⟨5, 2, []⟩
     (fun _ => .ok []) (fun _ => []) (fun _ => []) (fun _ _ _ => 0)
     (by decide)⟩

/-- C2 counterexample.  `RowGenerator.generate` never returns the claimed
3-panel row: with a unary rule configured and a sufficient single seed
panel, the first rule application clones the seed, the clone raises
`RuntimeError` (the C9 defect), and the surrounding `try/except`
re-raises it as `ValueError` — `generate` raises instead of producing
columns. -/
theorem row_generator_unary_rule_raises :
    (RowGenerator.mk [identityUnaryTRule]).generate [Panel.zero]
      = .error .valueError := rfl

/-- C2 amended.  Because every rule application begins with
`panel.clone()` (and the two-panel path clones both inputs), and
`TensorPanel.clone` always raises (the C9 defect), `generate` raises
`ValueError` for EVERY rule set with a configured one-panel or two-panel
rule and every sufficient seed list; the documented column policy
(`seed → col2 → col3`, binary column 3 from columns 1 and 2) is never
reached. -/
theorem row_generator_always_raises (rg : RowGenerator)
    (seeds : List Panel) (hreq : rg.requiredPanels ≤ seeds.length)
    (hrules : rg.onePanelRules.isEmpty = false
      ∨ rg.twoPanelRules.isEmpty = false) :
    rg.generate seeds = .error .valueError := by
  have hclone : ∀ p : Panel, TensorPanel.clone p = .error .runtimeError :=
    fun _ => rfl
  unfold RowGenerator.generate
  rw [if_neg (by omega)]
  cases h1 : rg.onePanelRules.isEmpty with
  | false =>
    simp [h1, RowGenerator.applyOnePanelRules, hclone, Bind.bind,
      Except.bind]
  | true =>
    rcases hrules with h | h2
    · rw [h1] at h
      cases h
    · simp [h1, h2, RowGenerator.applyTwoPanelRules, hclone,
        Bind.bind, Except.bind, Pure.pure, Except.pure]
      split
      · rename_i row heq
        split at heq <;> simp at heq
      · rfl

/-- Witness for C2's amended claim: a unary-rule configuration and a
binary-rule configuration, each with sufficient seeds, both raising. -/
theorem row_generator_always_raises_witness :
    (((RowGenerator.mk [identityUnaryTRule]).requiredPanels
        ≤ ([Panel.zero, Panel.zero] : List Panel).length
      ∧ ((RowGenerator.mk [identityUnaryTRule]).onePanelRules.isEmpty = false
         ∨ (RowGenerator.mk [identityUnaryTRule]).twoPanelRules.isEmpty
             = false))
     ∧ (RowGenerator.mk [identityUnaryTRule]).generate [Panel.zero, Panel.zero]
         = .error .valueError)
    ∧ (((RowGenerator.mk [firstPanelBinaryTRule]).requiredPanels
        ≤ ([Panel.zero, Panel.zero] : List Panel).length
      ∧ ((RowGenerator.mk [firstPanelBinaryTRule]).onePanelRules.isEmpty
             = false
         ∨ (RowGenerator.mk [firstPanelBinaryTRule]).twoPanelRules.isEmpty
             = false))
     ∧ (RowGenerator.mk [firstPanelBinaryTRule]).generate
         [Panel.zero, Panel.zero] = .error .valueError) :=
  ⟨⟨⟨by decide, Or.inl (by decide)⟩,
    row_generator_always_raises ⟨[identityUnaryTRule]⟩
      [Panel.zero, Panel.zero] (by decide) (Or.inl (by decide))⟩,
   ⟨⟨by decide, Or.inr (by decide)⟩,
    row_generator_always_raises ⟨[firstPanelBinaryTRule]⟩
      [Panel.zero, Panel.zero] (by decide) (Or.inr (by decide))⟩⟩
